import Mathlib

/-!
Shallow embedding of the pklformation stack lifecycle orchestrator
(src/aws_client.rs, src/commands/up_command.rs, src/commands/preview.rs,
src/commands/destroy.rs, src/display.rs).

Remote calls are modelled as environment-provided results; each command run
is a pure function from an environment (plus poll fuel, standing for the
unbounded loop) to an outcome together with the ordered trace of calls and
reports it issues.
-/

namespace Pklformation

/-- Stack statuses, after aws_sdk_cloudformation::types::StackStatus
(the variants matched anywhere in the source). -/
inductive StackStatus
  | CreateComplete
  | CreateFailed
  | CreateInProgress
  | DeleteComplete
  | DeleteFailed
  | DeleteInProgress
  | ImportComplete
  | ImportInProgress
  | ImportRollbackComplete
  | ImportRollbackFailed
  | ImportRollbackInProgress
  | ReviewInProgress
  | RollbackComplete
  | RollbackFailed
  | RollbackInProgress
  | UpdateComplete
  | UpdateCompleteCleanupInProgress
  | UpdateFailed
  | UpdateInProgress
  | UpdateRollbackComplete
  | UpdateRollbackCompleteCleanupInProgress
  | UpdateRollbackFailed
  | UpdateRollbackInProgress
  deriving DecidableEq

/-- Change set statuses, after aws_sdk_cloudformation::types::ChangeSetStatus. -/
inductive ChangeSetStatus
  | CreateComplete
  | CreateInProgress
  | CreatePending
  | DeleteComplete
  | DeleteFailed
  | DeleteInProgress
  | DeletePending
  | Failed
  deriving DecidableEq

/-- Resource statuses, after aws_sdk_cloudformation::types::ResourceStatus
(the variants matched in display.rs). -/
inductive ResourceStatus
  | CreateComplete
  | CreateFailed
  | CreateInProgress
  | DeleteComplete
  | DeleteFailed
  | DeleteInProgress
  | ImportComplete
  | ImportInProgress
  | ImportRollbackComplete
  | ImportRollbackFailed
  | ImportRollbackInProgress
  | RollbackComplete
  | RollbackFailed
  | RollbackInProgress
  | UpdateComplete
  | UpdateFailed
  | UpdateInProgress
  | UpdateRollbackComplete
  | UpdateRollbackFailed
  | UpdateRollbackInProgress
  deriving DecidableEq

/-- Change set kinds, after aws_sdk_cloudformation::types::ChangeSetType. -/
inductive ChangeSetType
  | create
  | update
  deriving DecidableEq

/-- AwsClient::stack_op_in_progres (src/aws_client.rs lines 164-177):
the stack progress classifier used by AwsClient::wait_until_stack_op_in_progress. -/
def stack_op_in_progres : StackStatus → Bool
  | .CreateInProgress => true
  | .DeleteInProgress => true
  | .ImportInProgress => true
  | .ImportRollbackInProgress => true
  | .RollbackInProgress => true
  | .UpdateCompleteCleanupInProgress => true
  | .UpdateInProgress => true
  | .UpdateRollbackCompleteCleanupInProgress => true
  | .UpdateRollbackInProgress => true
  | _ => false

/-- op_in_progres (src/commands/up_command.rs lines 118-132): the duplicate
classifier local to the Up command; it additionally lists ReviewInProgress. -/
def up_op_in_progres : StackStatus → Bool
  | .CreateInProgress => true
  | .DeleteInProgress => true
  | .ImportInProgress => true
  | .ImportRollbackInProgress => true
  | .ReviewInProgress => true
  | .RollbackInProgress => true
  | .UpdateCompleteCleanupInProgress => true
  | .UpdateInProgress => true
  | .UpdateRollbackCompleteCleanupInProgress => true
  | .UpdateRollbackInProgress => true
  | _ => false

/-- AwsClient::change_set_op_in_progres (src/aws_client.rs lines 179-187). -/
def change_set_op_in_progres : ChangeSetStatus → Bool
  | .CreateInProgress => true
  | .CreatePending => true
  | .DeleteInProgress => true
  | .DeletePending => true
  | _ => false

/-- Loop body of the pollers (src/aws_client.rs lines 198-205 and
src/commands/up_command.rs lines 143-150): each iteration re-queries, sleeps,
and returns as soon as the classifier reports the freshly queried status as
not in progress. The oracle gives the result of the i-th status query; a
query error propagates immediately. `fuel` bounds the iterations we inspect;
`none` stands for the loop still running (the source loop is unbounded).
Returns (result, sleeps performed, queries performed). -/
def pollLoop {σ : Type} (classify : σ → Bool)
    (oracle : Nat → Except String (σ × String)) :
    Nat → Nat → Option (Except String (σ × String) × Nat × Nat)
  | 0, _ => none
  | fuel + 1, i =>
    match oracle i with
    | .error e => some (.error e, i - 1, i + 1)
    | .ok (s, r) =>
      if classify s then pollLoop classify oracle fuel (i + 1)
      else some (.ok (s, r), i, i + 1)

/-- AwsClient::wait_until_stack_op_in_progress /
wait_until_change_set_op_in_progress (src/aws_client.rs lines 189-231), and
the identical wait_until_op_in_progress of up_command.rs: query once; if the
classifier says the status is not in progress, return it immediately with
zero sleeps; otherwise enter the poll loop. -/
def waitUntilSettled {σ : Type} (classify : σ → Bool)
    (oracle : Nat → Except String (σ × String)) (fuel : Nat) :
    Option (Except String (σ × String) × Nat × Nat) :=
  match oracle 0 with
  | .error e => some (.error e, 0, 1)
  | .ok (s, r) =>
    if classify s then pollLoop classify oracle fuel 1
    else some (.ok (s, r), 0, 1)

/-- Remote calls issued and operator-visible reports emitted by a command
run, recorded in order. -/
inductive Action
  | describeStack
  | printStack
  | printChangeSet
  | askConfirm
  | createChangeSet (kind : ChangeSetType)
  | executeChangeSet (csid : String)
  | deleteChangeSet (csid : String)
  | deleteStack
  | describeStackEvents
  | pendingQuery
  | describeChangeSet (csid : String)
  | reportAbort (s : StackStatus) (reason : String)
  | reportSuccess
  | reportFailure (s : StackStatus) (reason : String)
  | reportDestroyFailure (s : StackStatus)
  | reportResourceError (rtype logicalId reason props : String)
  deriving DecidableEq

/-- Calls that mutate remote state: change set creation, execution and
deletion, and stack deletion. -/
def Action.isMutating : Action → Bool
  | .createChangeSet _ => true
  | .executeChangeSet _ => true
  | .deleteChangeSet _ => true
  | .deleteStack => true
  | _ => false

/-- Recognizer for change set creation calls. -/
def Action.isCreateChangeSet : Action → Bool
  | .createChangeSet _ => true
  | _ => false

/-- How a command run ends: Ok(()), Err propagated by `?`, a panic (the
unwrap of a missing field), or the unbounded poll loop still spinning when
the fuel runs out. -/
inductive Outcome
  | ok
  | err (e : String)
  | panicked
  | hang
  deriving DecidableEq

/-- The two fields of the described Stack that destroy.rs reads
(stack.change_set_id() and stack.stack_id()). -/
structure Stack where
  stack_id : Option String
  change_set_id : Option String
  deriving DecidableEq

/-- StackEvent fields read by destroy.rs and Display::print_resources_errors.
Timestamps are modelled as integers; a missing timestamp defaults to 0 as in
`p.timestamp().map(|t| t.as_secs_f64()).unwrap_or_default()`. -/
structure StackEvent where
  timestamp : Option Int
  resource_status : Option ResourceStatus
  resource_type : Option String
  logical_resource_id : Option String
  resource_status_reason : Option String
  resource_properties : Option String
  deriving DecidableEq

/-- Filter of Display::print_resources_errors (src/display.rs lines 459-464):
only events whose resource status is UpdateFailed or CreateFailed. -/
def isFailedStatus : Option ResourceStatus → Bool
  | some .UpdateFailed => true
  | some .CreateFailed => true
  | _ => false

/-- The report a failing event is printed as (src/display.rs lines 465-490):
resource type, logical id, status reason and raw properties, each defaulted
when absent. -/
def reportOf (e : StackEvent) : Action :=
  .reportResourceError
    (e.resource_type.getD "UNKNOW RESOURCE TYPE")
    (e.logical_resource_id.getD "UNKNOW RESOURCE LOGICAL ID")
    (e.resource_status_reason.getD "UNKNOW REASON")
    (e.resource_properties.getD "")

/-- Display::print_resources_errors (src/display.rs lines 455-491): keep the
failed events, in stream order, and print each as a report. -/
def print_resources_errors (events : List StackEvent) : List Action :=
  (events.filter fun e => isFailedStatus e.resource_status).map reportOf

/-- The timestamp filter applied in DestroyCommand::run (src/destroy.rs lines
57-60) before handing the events to print_resources_errors: keep events whose
timestamp is strictly greater than the captured start time. -/
def destroyEventFilter (startTime : Int) (events : List StackEvent) :
    List StackEvent :=
  events.filter fun e => decide (startTime < e.timestamp.getD 0)

/-- Diagnostics Extractor as the spec words it (spec section 4.5): emit, in
stream order, one report for every event whose resource status is
CreateFailed or UpdateFailed and whose timestamp is strictly greater than
the boundary. Written from the spec to compare with the code-side pipeline. -/
def specDiagnosticsExtractor (boundary : Int) (events : List StackEvent) :
    List Action :=
  (events.filter fun e =>
    isFailedStatus e.resource_status && decide (boundary < e.timestamp.getD 0)).map
    reportOf

/-- Environment of UpCommand::run (src/commands/up_command.rs): results of
the template subprocess and of each remote call it can issue, plus the
answer ask_confirm would read. The stack status oracle gives the result of
the i-th describe_stacks query of the run. -/
structure UpEnv where
  template : Except String String
  stackStatusSeq : Nat → Except String (StackStatus × String)
  createChangeSetResult : Except String (Option String)
  executeChangeSetResult : Except String Unit
  deleteStackResult : Except String Unit
  confirm : Bool

/-- create_or_update (src/commands/up_command.rs lines 61-94): create the
change set; on acceptance execute it (unwrapping the optional id with
`context`); on decline do nothing further and return Ok. -/
def upCreateOrUpdate (env : UpEnv) (kind : ChangeSetType) :
    Outcome × List Action :=
  match env.createChangeSetResult with
  | .error e => (.err e, [.createChangeSet kind])
  | .ok idOpt =>
    if env.confirm then
      match idOpt with
      | none => (.err "Empty changeset ID", [.createChangeSet kind, .askConfirm])
      | some csid =>
        match env.executeChangeSetResult with
        | .error e =>
          (.err e, [.createChangeSet kind, .askConfirm, .executeChangeSet csid])
        | .ok _ =>
          (.ok, [.createChangeSet kind, .askConfirm, .executeChangeSet csid])
    else
      (.ok, [.createChangeSet kind, .askConfirm])

/-- recreate (src/commands/up_command.rs lines 104-116): delete the stack,
best-effort wait (the result is bound to `_`, so wait errors are tolerated),
then re-enter create_or_update with kind Create. Returns the continuation
point of the status oracle alongside the outcome and trace. -/
def upRecreate (env : UpEnv) (fuel base : Nat) : Outcome × List Action × Nat :=
  match env.deleteStackResult with
  | .error e => (.err e, [.deleteStack], base)
  | .ok _ =>
    match waitUntilSettled up_op_in_progres
        (fun k => env.stackStatusSeq (base + k)) fuel with
    | none => (.hang, [.deleteStack], base)
    | some (_, _, q) =>
      let res := upCreateOrUpdate env .create
      (res.1, .deleteStack :: res.2, base + q)

/-- Final phase of UpCommand::run (src/commands/up_command.rs lines
214-224): when the selected branch returned Ok, wait for the stack to
settle again starting at oracle index `base` and classify: CreateComplete
or UpdateComplete is reported as success, anything else is logged with the
raw status and reason; a branch error or hang propagates unchanged. -/
def upFinish (env : UpEnv) (fuel : Nat) (o : Outcome) (tr : List Action)
    (base : Nat) : Outcome × List Action :=
  match o with
  | .ok =>
    match waitUntilSettled up_op_in_progres
        (fun k => env.stackStatusSeq (base + k)) fuel with
    | none => (.hang, tr)
    | some (.error e, _, _) => (.err e, tr)
    | some (.ok (s2, r2), _, _) =>
      match s2 with
      | .CreateComplete | .UpdateComplete => (.ok, tr ++ [.reportSuccess])
      | _ => (.ok, tr ++ [.reportFailure s2 r2])
  | o => (o, tr)

/-- UpCommand::run (src/commands/up_command.rs lines 166-224): evaluate the
template, wait for the stack to settle, branch on the settled status (any
wait error selects the CREATE branch), then run the final phase; the
catch-all branch logs the abort and returns Ok without a second wait. -/
def upRun (env : UpEnv) (fuel : Nat) : Outcome × List Action :=
  match env.template with
  | .error e => (.err e, [])
  | .ok _ =>
    match waitUntilSettled up_op_in_progres env.stackStatusSeq fuel with
    | none => (.hang, [])
    | some (wres, _, q) =>
      match wres with
      | .error _ =>
        let res := upCreateOrUpdate env .create
        upFinish env fuel res.1 res.2 q
      | .ok (s, r) =>
        match s with
        | .DeleteComplete =>
          let res := upCreateOrUpdate env .create
          upFinish env fuel res.1 res.2 q
        | .CreateComplete | .ImportComplete | .UpdateComplete
        | .UpdateRollbackComplete =>
          let res := upCreateOrUpdate env .update
          upFinish env fuel res.1 res.2 q
        | .CreateFailed | .RollbackComplete =>
          let res := upRecreate env fuel q
          upFinish env fuel res.1 res.2.1 res.2.2
        | _ => (.ok, [.reportAbort s r])

/-- Environment of PreviewCommand::run (src/commands/preview.rs): the
pending change set query yields either no summary, a summary without an id,
or a summary with its change set id. -/
structure PreviewEnv where
  template : Except String String
  stackStatusSeq : Nat → Except String (StackStatus × String)
  csStatusSeq : Nat → Except String (ChangeSetStatus × String)
  createChangeSetResult : Except String (Option String)
  describeChangeSetResult : Except String Unit
  pendingResult : Except String (Option (Option String))

/-- PreviewCommand::preview_new_change_set (src/commands/preview.rs lines
87-102): evaluate the template, create the change set, unwrap its id, poll
the change set until settled (the settled value is discarded, only errors
propagate), describe it and print the diff. -/
def previewNewChangeSet (env : PreviewEnv) (kind : ChangeSetType) (fuel : Nat) :
    Outcome × List Action :=
  match env.template with
  | .error e => (.err e, [])
  | .ok _ =>
    match env.createChangeSetResult with
    | .error e => (.err e, [.createChangeSet kind])
    | .ok none => (.err "Empty change set id", [.createChangeSet kind])
    | .ok (some csid) =>
      match waitUntilSettled change_set_op_in_progres env.csStatusSeq fuel with
      | none => (.hang, [.createChangeSet kind])
      | some (.error e, _, _) => (.err e, [.createChangeSet kind])
      | some (.ok _, _, _) =>
        match env.describeChangeSetResult with
        | .error e => (.err e, [.createChangeSet kind, .describeChangeSet csid])
        | .ok _ =>
          (.ok, [.createChangeSet kind, .describeChangeSet csid, .printChangeSet])

/-- PreviewCommand::preview_exisint_change_set (src/commands/preview.rs lines
104-121): query the pending change set with available execution status, fail
with NotFound if there is none, unwrap its id, describe it and print its
diff. -/
def previewExistingChangeSet (env : PreviewEnv) : Outcome × List Action :=
  match env.pendingResult with
  | .error e => (.err e, [.pendingQuery])
  | .ok none => (.err "Pending changeset not found", [.pendingQuery])
  | .ok (some none) => (.err "Empty change set id", [.pendingQuery])
  | .ok (some (some csid)) =>
    match env.describeChangeSetResult with
    | .error e => (.err e, [.pendingQuery, .describeChangeSet csid])
    | .ok _ => (.ok, [.pendingQuery, .describeChangeSet csid, .printChangeSet])

/-- PreviewCommand::run (src/commands/preview.rs lines 34-65): wait for the
stack to settle with the AwsClient classifier (so ReviewInProgress settles),
branch as Up does but with a ReviewInProgress branch resuming the pending
change set; any wait error selects the new-Create branch; the catch-all
branch logs the abort and returns Ok. -/
def previewRun (env : PreviewEnv) (fuel : Nat) : Outcome × List Action :=
  match waitUntilSettled stack_op_in_progres env.stackStatusSeq fuel with
  | none => (.hang, [])
  | some (.error _, _, _) => previewNewChangeSet env .create fuel
  | some (.ok (s, r), _, _) =>
    match s with
    | .DeleteComplete => previewNewChangeSet env .create fuel
    | .CreateComplete | .ImportComplete | .UpdateComplete
    | .UpdateRollbackComplete => previewNewChangeSet env .update fuel
    | .ReviewInProgress => previewExistingChangeSet env
    | _ => (.ok, [.reportAbort s r])

/-- Environment of DestroyCommand::run (src/commands/destroy.rs). startTime
is the epoch instant captured right after the best-effort wait and before
any mutating call. -/
structure DestroyEnv where
  stackStatusSeq : Nat → Except String (StackStatus × String)
  describeStackResult : Except String Stack
  describeChangeSetResult : Except String Unit
  deleteStackResult : Except String Unit
  confirm : Bool
  startTime : Int
  eventsResult : Except String (List StackEvent)

/-- DestroyCommand::run (src/commands/destroy.rs lines 25-66): best-effort
wait (result bound to `_wait_result`, errors ignored), capture the start
time, describe and print the stack and its pending change set if any, call
ask_confirm with the returned Bool discarded, delete the stack unwrapping
its id (panicking when absent), wait again, and classify: DeleteComplete is
success, anything else is logged and the post-boundary failed events are
fetched and reported, the run still returning Ok. The second wait is
modelled as propagating poll errors. -/
def destroyRun (env : DestroyEnv) (fuel : Nat) : Outcome × List Action :=
  match waitUntilSettled stack_op_in_progres env.stackStatusSeq fuel with
  | none => (.hang, [])
  | some (_, _, q) =>
    match env.describeStackResult with
    | .error e => (.err e, [.describeStack])
    | .ok stack =>
      let tr0 := [Action.describeStack, Action.printStack]
      let csStep : Outcome × List Action :=
        match stack.change_set_id with
        | none => (.ok, tr0)
        | some csid =>
          match env.describeChangeSetResult with
          | .error e => (.err e, tr0 ++ [.describeChangeSet csid])
          | .ok _ => (.ok, tr0 ++ [.describeChangeSet csid, .printChangeSet])
      match csStep with
      | (.ok, tr1) =>
        let tr2 := tr1 ++ [Action.askConfirm]
        match stack.stack_id with
        | none => (.panicked, tr2)
        | some _ =>
          match env.deleteStackResult with
          | .error e => (.err e, tr2 ++ [.deleteStack])
          | .ok _ =>
            match waitUntilSettled stack_op_in_progres
                (fun k => env.stackStatusSeq (q + k)) fuel with
            | none => (.hang, tr2 ++ [.deleteStack])
            | some (.error e, _, _) => (.err e, tr2 ++ [.deleteStack])
            | some (.ok (s2, _), _, _) =>
              if s2 = .DeleteComplete then
                (.ok, tr2 ++ [.deleteStack, .reportSuccess])
              else
                match env.eventsResult with
                | .error e =>
                  (.err e,
                    tr2 ++ [.deleteStack, .reportDestroyFailure s2,
                      .describeStackEvents])
                | .ok evs =>
                  (.ok,
                    tr2 ++ [.deleteStack, .reportDestroyFailure s2,
                      .describeStackEvents] ++
                      print_resources_errors
                        (destroyEventFilter env.startTime evs))
      | (o, tr1) => (o, tr1)

/-! Concrete environments used by witnesses and counterexamples. -/

/-- Status oracle that is in progress twice and then settles. -/
def c7Oracle : Nat → Except String (StackStatus × String) :=
  fun k => if k < 2 then .ok (.CreateInProgress, "creating")
    else .ok (.CreateComplete, "done")

/-- Up environment whose stack reports ReviewInProgress on every query. -/
def envUpReview : UpEnv :=
  { template := .ok "body"
    stackStatusSeq := fun _ => .ok (.ReviewInProgress, "review")
    createChangeSetResult := .ok (some "cs-1")
    executeChangeSetResult := .ok ()
    deleteStackResult := .ok ()
    confirm := true }

/-- Up environment whose initial status query fails with a network-style
error that is not stack-not-found; afterwards the stack reads settled. -/
def envUpNetErr : UpEnv :=
  { template := .ok "body"
    stackStatusSeq := fun k =>
      if k = 0 then .error "connection timed out" else .ok (.CreateComplete, "ok")
    createChangeSetResult := .ok (some "cs-2")
    executeChangeSetResult := .ok ()
    deleteStackResult := .ok ()
    confirm := false }

/-- Up environment for a declined CREATE on a non-existent stack. -/
def envUpDeclined : UpEnv :=
  { template := .ok "body"
    stackStatusSeq := fun k =>
      if k = 0 then .error "Stack with id demo does not exist"
      else .ok (.CreateComplete, "done")
    createChangeSetResult := .ok (some "cs-3")
    executeChangeSetResult := .ok ()
    deleteStackResult := .ok ()
    confirm := false }

/-- Destroy environment where the operator declines the confirmation. -/
def envDestroyDeclined : DestroyEnv :=
  { stackStatusSeq := fun k =>
      if k = 0 then .ok (.CreateComplete, "ok") else .ok (.DeleteComplete, "gone")
    describeStackResult := .ok ⟨some "sid-1", none⟩
    describeChangeSetResult := .ok ()
    deleteStackResult := .ok ()
    confirm := false
    startTime := 100
    eventsResult := .ok [] }

/-- Up environment reaching the RECREATE branch with every confirmation
answered No. -/
def envUpRecreateNoGate : UpEnv :=
  { template := .ok "body"
    stackStatusSeq := fun k =>
      if k = 0 then .ok (.CreateFailed, "failed")
      else if k = 1 then .ok (.DeleteComplete, "gone")
      else .ok (.CreateComplete, "made")
    createChangeSetResult := .ok (some "cs-4")
    executeChangeSetResult := .ok ()
    deleteStackResult := .ok ()
    confirm := false }

/-- Up environment whose accepted update ends in UpdateFailed. -/
def envUpFailNoEvents : UpEnv :=
  { template := .ok "body"
    stackStatusSeq := fun k =>
      if k = 0 then .ok (.CreateComplete, "ok") else .ok (.UpdateFailed, "boom")
    createChangeSetResult := .ok (some "cs-5")
    executeChangeSetResult := .ok ()
    deleteStackResult := .ok ()
    confirm := true }

/-- A resource failure event after the boundary 100. -/
def evFail : StackEvent :=
  { timestamp := some 105
    resource_status := some .CreateFailed
    resource_type := some "AWS::S3::Bucket"
    logical_resource_id := some "Bucket"
    resource_status_reason := some "denied"
    resource_properties := some "props" }

/-- A resource failure event before the boundary 100. -/
def evOld : StackEvent :=
  { timestamp := some 90
    resource_status := some .CreateFailed
    resource_type := some "AWS::S3::Bucket"
    logical_resource_id := some "OldBucket"
    resource_status_reason := some "denied"
    resource_properties := some "props" }

/-- A successful event after the boundary 100. -/
def evOkLate : StackEvent :=
  { timestamp := some 120
    resource_status := some .UpdateComplete
    resource_type := some "AWS::S3::Bucket"
    logical_resource_id := some "FineBucket"
    resource_status_reason := none
    resource_properties := none }

/-- Destroy environment whose deletion ends in DeleteFailed. -/
def envDestroyDeleteFailed : DestroyEnv :=
  { stackStatusSeq := fun k =>
      if k = 0 then .ok (.CreateComplete, "ok") else .ok (.DeleteFailed, "stuck")
    describeStackResult := .ok ⟨some "sid-2", none⟩
    describeChangeSetResult := .ok ()
    deleteStackResult := .ok ()
    confirm := true
    startTime := 100
    eventsResult := .ok [evFail, evOld, evOkLate] }

/-- Up environment observing a settled DeleteComplete at invocation. -/
def envUpDelComplete : UpEnv :=
  { template := .ok "body"
    stackStatusSeq := fun k =>
      if k = 0 then .ok (.DeleteComplete, "gone") else .ok (.CreateComplete, "made")
    createChangeSetResult := .ok (some "cs-6")
    executeChangeSetResult := .ok ()
    deleteStackResult := .ok ()
    confirm := true }

/-- Up environment observing a settled DeleteFailed, outside the branch
table. -/
def envUpAbortCase : UpEnv :=
  { template := .ok "body"
    stackStatusSeq := fun _ => .ok (.DeleteFailed, "rip")
    createChangeSetResult := .ok (some "cs-7")
    executeChangeSetResult := .ok ()
    deleteStackResult := .ok ()
    confirm := true }

/-- Up environment observing a settled DeleteComplete whose change set
creation call fails. -/
def envUpCreateErr : UpEnv :=
  { template := .ok "body"
    stackStatusSeq := fun _ => .ok (.DeleteComplete, "gone")
    createChangeSetResult := .error "AccessDenied"
    executeChangeSetResult := .ok ()
    deleteStackResult := .ok ()
    confirm := true }

/-- Up environment observing a settled DeleteComplete whose change set
execution call fails. -/
def envUpExecErr : UpEnv :=
  { template := .ok "body"
    stackStatusSeq := fun _ => .ok (.DeleteComplete, "gone")
    createChangeSetResult := .ok (some "cs-11")
    executeChangeSetResult := .error "Throttling"
    deleteStackResult := .ok ()
    confirm := true }

/-- Up environment in the RECREATE branch whose stack deletion call fails. -/
def envUpRecreateDelErr : UpEnv :=
  { template := .ok "body"
    stackStatusSeq := fun _ => .ok (.CreateFailed, "bad")
    createChangeSetResult := .ok (some "cs-12")
    executeChangeSetResult := .ok ()
    deleteStackResult := .error "AccessDenied"
    confirm := true }

/-- Up environment in the RECREATE branch whose best-effort post-deletion
poll fails on its first query; afterwards the stack reads settled. -/
def envUpRecreatePollErr : UpEnv :=
  { template := .ok "body"
    stackStatusSeq := fun k =>
      if k = 0 then .ok (.CreateFailed, "bad")
      else if k = 1 then .error "connection reset"
      else .ok (.CreateComplete, "made")
    createChangeSetResult := .ok (some "cs-13")
    executeChangeSetResult := .ok ()
    deleteStackResult := .ok ()
    confirm := false }

/-- Preview environment observing a settled ReviewInProgress with a pending
change set available. -/
def envPreviewReview : PreviewEnv :=
  { template := .ok "body"
    stackStatusSeq := fun _ => .ok (.ReviewInProgress, "review")
    csStatusSeq := fun _ => .ok (.CreateComplete, "ready")
    createChangeSetResult := .ok (some "cs-8")
    describeChangeSetResult := .ok ()
    pendingResult := .ok (some (some "cs-9")) }

/-- Preview environment whose initial status query fails. -/
def envPreviewErr : PreviewEnv :=
  { template := .ok "body"
    stackStatusSeq := fun _ => .error "connection timed out"
    csStatusSeq := fun _ => .ok (.CreateComplete, "ready")
    createChangeSetResult := .ok (some "cs-10")
    describeChangeSetResult := .ok ()
    pendingResult := .ok none }

/-- Destroy environment whose described stack carries no stack id. -/
def envDestroyNoId : DestroyEnv :=
  { stackStatusSeq := fun _ => .ok (.CreateComplete, "ok")
    describeStackResult := .ok ⟨none, none⟩
    describeChangeSetResult := .ok ()
    deleteStackResult := .ok ()
    confirm := true
    startTime := 100
    eventsResult := .ok [] }

/-! Helper lemmas. -/

theorem head?_append_of_some {α : Type} {l l' : List α} {a : α}
    (h : l.head? = some a) : (l ++ l').head? = some a := by
  cases l <;> simp_all

/-- The trace of create_or_update always starts with the change set
creation call. -/
theorem upCreateOrUpdate_head (env : UpEnv) (kind : ChangeSetType) :
    (upCreateOrUpdate env kind).2.head? = some (.createChangeSet kind) := by
  unfold upCreateOrUpdate
  cases env.createChangeSetResult with
  | error e => rfl
  | ok idOpt =>
    cases h : env.confirm with
    | false => rfl
    | true =>
      cases idOpt with
      | none => rfl
      | some csid => cases env.executeChangeSetResult <;> rfl

/-- The poll loop, entered at index i with every status from i up to n - 1
still in progress and the status at n settled, returns the n-th query's
status and reason, having slept n times and queried n + 1 times in total. -/
theorem pollLoop_reaches {σ : Type} (classify : σ → Bool)
    (oracle : Nat → Except String (σ × String)) :
    ∀ fuel i n s r, 0 < i → i ≤ n → oracle n = .ok (s, r) →
      classify s = false →
      (∀ m, i ≤ m → m < n →
        ∃ sm rm, oracle m = .ok (sm, rm) ∧ classify sm = true) →
      n + 1 ≤ fuel + i →
      pollLoop classify oracle fuel i = some (.ok (s, r), n, n + 1) := by
  intro fuel
  induction fuel with
  | zero => intro i n s r hi hin hor hs hprog hle; omega
  | succ f ih =>
    intro i n s r hi hin hor hs hprog hle
    by_cases hin' : i = n
    · subst hin'
      simp [pollLoop, hor, hs]
    · have hlt : i < n := lt_of_le_of_ne hin hin'
      obtain ⟨sm, rm, hom, hcm⟩ := hprog i le_rfl hlt
      simp only [pollLoop, hom, hcm, if_true]
      exact ih (i + 1) n s r (by omega) (by omega) hor hs
        (fun m hm1 hm2 => hprog m (by omega) hm2) (by omega)

/-- When every query reports an in-progress status, the poll loop never
returns, whatever the fuel. -/
theorem pollLoop_forever {σ : Type} (classify : σ → Bool)
    (oracle : Nat → Except String (σ × String))
    (hall : ∀ k, ∃ sk rk, oracle k = .ok (sk, rk) ∧ classify sk = true) :
    ∀ fuel i, pollLoop classify oracle fuel i = none := by
  intro fuel
  induction fuel with
  | zero => intro i; rfl
  | succ f ih =>
    intro i
    obtain ⟨sk, rk, hok, hck⟩ := hall i
    simp only [pollLoop, hok, hck, if_true]
    exact ih (i + 1)

/-- The final phase never changes the first recorded action. -/
theorem upFinish_head (env : UpEnv) (fuel : Nat) (o : Outcome)
    (tr : List Action) (base : Nat) (a : Action) (h : tr.head? = some a) :
    (upFinish env fuel o tr base).2.head? = some a := by
  unfold upFinish
  cases o with
  | ok =>
    cases hw : waitUntilSettled up_op_in_progres
        (fun k => env.stackStatusSeq (base + k)) fuel with
    | none => simpa
    | some p =>
      obtain ⟨res, sl, q⟩ := p
      cases res with
      | error e => simpa
      | ok sr =>
        obtain ⟨s2, r2⟩ := sr
        cases s2 <;> simp [head?_append_of_some h]
  | err e => simpa
  | panicked => simpa
  | hang => simpa

/-- Value of the final phase when the second wait settles. -/
theorem upFinish_settled (env : UpEnv) (fuel : Nat) (tr : List Action)
    (base : Nat) (s2 : StackStatus) (r2 : String) (sl q2 : Nat)
    (hw : waitUntilSettled up_op_in_progres
      (fun k => env.stackStatusSeq (base + k)) fuel =
      some (.ok (s2, r2), sl, q2)) :
    upFinish env fuel .ok tr base =
      if s2 = .CreateComplete ∨ s2 = .UpdateComplete then
        (.ok, tr ++ [.reportSuccess])
      else (.ok, tr ++ [.reportFailure s2 r2]) := by
  unfold upFinish
  rw [hw]
  cases s2 <;> simp

/-- The final phase keeps every action already in the trace. -/
theorem upFinish_mem (env : UpEnv) (fuel : Nat) (o : Outcome)
    (tr : List Action) (base : Nat) (a : Action) (h : a ∈ tr) :
    a ∈ (upFinish env fuel o tr base).2 := by
  unfold upFinish
  cases o with
  | ok =>
    cases hw : waitUntilSettled up_op_in_progres
        (fun k => env.stackStatusSeq (base + k)) fuel with
    | none => simpa
    | some p =>
      obtain ⟨res, sl, q⟩ := p
      cases res with
      | error e => simpa
      | ok sr =>
        obtain ⟨s2, r2⟩ := sr
        cases s2 <;> simp [h]
  | err e => simpa
  | panicked => simpa
  | hang => simpa

/-- The trace of the recreate branch always starts with the stack deletion
call. -/
theorem upRecreate_head (env : UpEnv) (fuel base : Nat) :
    (upRecreate env fuel base).2.1.head? = some .deleteStack := by
  unfold upRecreate
  cases env.deleteStackResult with
  | error e => rfl
  | ok u =>
    cases waitUntilSettled up_op_in_progres
        (fun k => env.stackStatusSeq (base + k)) fuel with
    | none => rfl
    | some p => rfl

/-! Claim theorems. -/

/-- C7: AwsClient::wait_until_stack_op_in_progress queries the status once
and, if the classifier says it is not in progress, returns that status and
reason immediately with zero sleeps; otherwise it loops, re-querying on
every iteration, and terminates exactly when the classifier transitions
from true to false, returning the settled status and its reason (with one
sleep per loop iteration). -/
theorem wait_until_stack_op_in_progress_spec
    (oracle : Nat → Except String (StackStatus × String)) (fuel : Nat) :
    (∀ s r, oracle 0 = .ok (s, r) → stack_op_in_progres s = false →
      waitUntilSettled stack_op_in_progres oracle fuel =
        some (.ok (s, r), 0, 1))
    ∧ (∀ n s r, 0 < n → oracle n = .ok (s, r) →
      stack_op_in_progres s = false →
      (∀ m, m < n →
        ∃ sm rm, oracle m = .ok (sm, rm) ∧ stack_op_in_progres sm = true) →
      n ≤ fuel →
      waitUntilSettled stack_op_in_progres oracle fuel =
        some (.ok (s, r), n, n + 1)) := by
  constructor
  · intro s r h0 hs
    unfold waitUntilSettled
    rw [h0]
    simp [hs]
  · intro n s r hn hor hs hprog hfuel
    obtain ⟨s0, r0, h0, hc0⟩ := hprog 0 hn
    unfold waitUntilSettled
    rw [h0]
    simp only [hc0, if_true]
    exact pollLoop_reaches stack_op_in_progres oracle fuel 1 n s r
      (by omega) (by omega) hor hs
      (fun m hm1 hm2 => hprog m hm2) (by omega)

/-- C7 witness: on an oracle in progress at queries 0 and 1 and settled at
query 2, the poller returns the settled status with two sleeps and three
queries. -/
theorem wait_until_stack_op_in_progress_spec_witness :
    waitUntilSettled stack_op_in_progres c7Oracle 3 =
      some (.ok (.CreateComplete, "done"), 2, 3) := by
  refine (wait_until_stack_op_in_progress_spec c7Oracle 3).2 2
    .CreateComplete "done" (by omega) rfl rfl ?_ (by omega)
  intro m hm
  interval_cases m
  · exact ⟨.CreateInProgress, "creating", rfl, rfl⟩
  · exact ⟨.CreateInProgress, "creating", rfl, rfl⟩

/-- C4 counterexample: the classifier local to up_command.rs classifies
ReviewInProgress as in progress, so Up's poller does not return it
immediately; on a stack constantly reporting ReviewInProgress the loop is
still spinning after four inspected iterations. -/
theorem up_classifier_review_in_progress_cex :
    up_op_in_progres .ReviewInProgress = true
    ∧ waitUntilSettled up_op_in_progres
        (fun _ => .ok (.ReviewInProgress, "review")) 4 = none := by
  constructor
  · rfl
  · rfl

/-- C4 amended: AwsClient::stack_op_in_progres returns true for exactly the
nine in-progress statuses and false for every other status; in particular
ReviewInProgress is settled for it and AwsClient's poller returns it
immediately with zero sleeps. The duplicate classifier op_in_progres in
up_command.rs additionally returns true for ReviewInProgress. -/
theorem stack_classifier_table :
    (∀ s, stack_op_in_progres s = true ↔
      (s = .CreateInProgress ∨ s = .DeleteInProgress ∨ s = .ImportInProgress ∨
        s = .ImportRollbackInProgress ∨ s = .RollbackInProgress ∨
        s = .UpdateCompleteCleanupInProgress ∨ s = .UpdateInProgress ∨
        s = .UpdateRollbackCompleteCleanupInProgress ∨
        s = .UpdateRollbackInProgress))
    ∧ stack_op_in_progres .ReviewInProgress = false
    ∧ (∀ s, up_op_in_progres s =
        (stack_op_in_progres s || decide (s = .ReviewInProgress)))
    ∧ (∀ (oracle : Nat → Except String (StackStatus × String)) fuel r,
        oracle 0 = .ok (.ReviewInProgress, r) →
        waitUntilSettled stack_op_in_progres oracle fuel =
          some (.ok (.ReviewInProgress, r), 0, 1)) := by
  refine ⟨fun s => ?_, rfl, fun s => ?_, fun oracle fuel r h => ?_⟩
  · cases s <;> decide
  · cases s <;> decide
  · unfold waitUntilSettled
    rw [h]
    simp [stack_op_in_progres]

/-- C4 witness: AwsClient's poller returns a first-observed ReviewInProgress
at once: zero sleeps, one query. -/
theorem stack_classifier_table_witness :
    waitUntilSettled stack_op_in_progres
      (fun _ => .ok (.ReviewInProgress, "awaiting decision")) 7 =
      some (.ok (.ReviewInProgress, "awaiting decision"), 0, 1) :=
  stack_classifier_table.2.2.2 _ 7 "awaiting decision" rfl

/-- C2: for every settled stack status observed when Up is invoked, the
selected branch follows the table: a failed initial query (in particular
stack-not-found) selects CREATE, DeleteComplete selects CREATE, each of
CreateComplete, ImportComplete, UpdateComplete and UpdateRollbackComplete
selects UPDATE, CreateFailed and RollbackComplete select RECREATE, and any
other settled status aborts, reporting the raw status and reason, returning
Ok and issuing no mutating call. -/
theorem up_branch_selection (env : UpEnv) (fuel : Nat) (tpl : String)
    (htpl : env.template = .ok tpl) :
    (∀ e sl q,
      waitUntilSettled up_op_in_progres env.stackStatusSeq fuel =
        some (.error e, sl, q) →
      (upRun env fuel).2.head? = some (.createChangeSet .create))
    ∧ (∀ r sl q,
      waitUntilSettled up_op_in_progres env.stackStatusSeq fuel =
        some (.ok (.DeleteComplete, r), sl, q) →
      (upRun env fuel).2.head? = some (.createChangeSet .create))
    ∧ (∀ s r sl q,
      waitUntilSettled up_op_in_progres env.stackStatusSeq fuel =
        some (.ok (s, r), sl, q) →
      (s = .CreateComplete ∨ s = .ImportComplete ∨ s = .UpdateComplete ∨
        s = .UpdateRollbackComplete) →
      (upRun env fuel).2.head? = some (.createChangeSet .update))
    ∧ (∀ s r sl q,
      waitUntilSettled up_op_in_progres env.stackStatusSeq fuel =
        some (.ok (s, r), sl, q) →
      (s = .CreateFailed ∨ s = .RollbackComplete) →
      (upRun env fuel).2.head? = some .deleteStack)
    ∧ (∀ s r sl q,
      waitUntilSettled up_op_in_progres env.stackStatusSeq fuel =
        some (.ok (s, r), sl, q) →
      up_op_in_progres s = false →
      s ≠ .DeleteComplete → s ≠ .CreateComplete → s ≠ .ImportComplete →
      s ≠ .UpdateComplete → s ≠ .UpdateRollbackComplete →
      s ≠ .CreateFailed → s ≠ .RollbackComplete →
      upRun env fuel = (.ok, [.reportAbort s r]) ∧
        (upRun env fuel).2.all (fun a => !a.isMutating) = true) := by
  refine ⟨fun e sl q hw => ?_, fun r sl q hw => ?_, fun s r sl q hw hs => ?_,
    fun s r sl q hw hs => ?_, fun s r sl q hw hcl h1 h2 h3 h4 h5 h6 h7 => ?_⟩
  · simp only [upRun, htpl, hw]
    exact upFinish_head _ _ _ _ _ _ (upCreateOrUpdate_head env .create)
  · simp only [upRun, htpl, hw]
    exact upFinish_head _ _ _ _ _ _ (upCreateOrUpdate_head env .create)
  · simp only [upRun, htpl, hw]
    rcases hs with rfl | rfl | rfl | rfl <;>
      exact upFinish_head _ _ _ _ _ _ (upCreateOrUpdate_head env .update)
  · simp only [upRun, htpl, hw]
    rcases hs with rfl | rfl <;>
      exact upFinish_head _ _ _ _ _ _ (upRecreate_head env fuel q)
  · simp only [upRun, htpl, hw]
    cases s <;> simp_all [Action.isMutating]

/-- C2 witness: with a settled DeleteComplete the first issued call is the
Create-kind change set creation, and with a settled DeleteFailed the run
aborts with the raw status and reason, exits Ok, and mutates nothing. -/
theorem up_branch_selection_witness :
    (upRun envUpDelComplete 3).2.head? = some (.createChangeSet .create)
    ∧ upRun envUpAbortCase 3 = (.ok, [.reportAbort .DeleteFailed "rip"])
    ∧ (upRun envUpAbortCase 3).2.all (fun a => !a.isMutating) = true := by
  refine ⟨?_, ?_⟩
  · exact (up_branch_selection envUpDelComplete 3 "body" rfl).2.1 "gone" 0 1 rfl
  · exact (up_branch_selection envUpAbortCase 3 "body" rfl).2.2.2.2
      .DeleteFailed "rip" 0 1 rfl rfl
      (by decide) (by decide) (by decide) (by decide) (by decide)
      (by decide) (by decide)

/-- C3 counterexample: up_command.rs classifies ReviewInProgress as
in-progress, so on a stack whose status query constantly returns
ReviewInProgress the Up command is still inside its poll loop after four
inspected iterations, having selected no branch, queried no pending change
request and displayed nothing — it never selects RESUME. -/
theorem up_review_in_progress_no_resume_cex :
    upRun envUpReview 4 = (.hang, [])
    ∧ up_op_in_progres .ReviewInProgress = true := by
  exact ⟨by decide, rfl⟩

/-- C3 amended: in this revision Up treats ReviewInProgress as in-progress
and polls it forever, never reaching a RESUME branch; it is Preview that
implements RESUME: on a settled ReviewInProgress it queries the single
pending change request with available execution status before and instead
of creating any new change request (failing with NotFound when none
exists) and displays that request's diff. -/
theorem preview_resume_spec :
    (∀ (env : PreviewEnv) fuel r sl q,
      waitUntilSettled stack_op_in_progres env.stackStatusSeq fuel =
        some (.ok (.ReviewInProgress, r), sl, q) →
      ((previewRun env fuel).2.head? = some .pendingQuery
        ∧ (previewRun env fuel).2.all (fun a => !a.isCreateChangeSet) = true
        ∧ (env.pendingResult = .ok none →
            previewRun env fuel =
              (.err "Pending changeset not found", [.pendingQuery]))
        ∧ (∀ csid, env.pendingResult = .ok (some (some csid)) →
            env.describeChangeSetResult = .ok () →
            previewRun env fuel =
              (.ok, [.pendingQuery, .describeChangeSet csid, .printChangeSet]))))
    ∧ (∀ (env : UpEnv) fuel tpl r,
        env.template = .ok tpl →
        (∀ n, env.stackStatusSeq n = .ok (.ReviewInProgress, r)) →
        upRun env fuel = (.hang, [])) := by
  constructor
  · intro env fuel r sl q hw
    simp only [previewRun, hw]
    unfold previewExistingChangeSet
    refine ⟨?_, ?_, fun hp => ?_, fun csid hp hd => ?_⟩
    · cases hp : env.pendingResult with
      | error e => rfl
      | ok o =>
        cases o with
        | none => rfl
        | some io =>
          cases io with
          | none => rfl
          | some csid => cases env.describeChangeSetResult <;> rfl
    · cases hp : env.pendingResult with
      | error e => simp [Action.isCreateChangeSet]
      | ok o =>
        cases o with
        | none => simp [Action.isCreateChangeSet]
        | some io =>
          cases io with
          | none => simp [Action.isCreateChangeSet]
          | some csid =>
            cases env.describeChangeSetResult <;>
              simp [Action.isCreateChangeSet]
    · rw [hp]
    · rw [hp, hd]
  · intro env fuel tpl r htpl hseq
    have hw : waitUntilSettled up_op_in_progres env.stackStatusSeq fuel =
        none := by
      unfold waitUntilSettled
      rw [hseq 0]
      simp only [up_op_in_progres, if_true]
      exact pollLoop_forever up_op_in_progres env.stackStatusSeq
        (fun k => ⟨.ReviewInProgress, r, hseq k, rfl⟩) fuel 1
    simp only [upRun, htpl, hw]

/-- C3 witness: Preview, observing the settled ReviewInProgress, resumes the
pending change set cs-9 and displays its diff; Up, on the same stack,
hangs without issuing any call. -/
theorem preview_resume_spec_witness :
    previewRun envPreviewReview 3 =
      (.ok, [.pendingQuery, .describeChangeSet "cs-9", .printChangeSet])
    ∧ upRun envUpReview 6 = (.hang, []) := by
  constructor
  · exact (preview_resume_spec.1 envPreviewReview 3 "review" 0 1 rfl).2.2.2
      "cs-9" rfl rfl
  · exact preview_resume_spec.2 envUpReview 6 "body" "review" rfl fun n => rfl

/-- C1: with every confirmation declined, Destroy still issues the
delete_stack call — DestroyCommand::run calls Display::ask_confirm but
discards the returned Bool — and Up's RECREATE branch deletes the stack
before any prompt at all: its trace begins with the deletion and the only
prompt comes later, from create_or_update. Both runs end Ok. -/
theorem destroy_and_recreate_delete_without_accept :
    envDestroyDeclined.confirm = false
    ∧ destroyRun envDestroyDeclined 2 =
        (.ok, [.describeStack, .printStack, .askConfirm, .deleteStack,
          .reportSuccess])
    ∧ envUpRecreateNoGate.confirm = false
    ∧ upRun envUpRecreateNoGate 3 =
        (.ok, [.deleteStack, .createChangeSet .create, .askConfirm,
          .reportSuccess]) := by
  exact ⟨rfl, by decide, rfl, by decide⟩

/-- C5 counterexample: a declined CREATE run leaves the change request
pending: with the confirmation answered No, the run creates change set
cs-3, deletes nothing — no delete_change_set call ever appears in the trace
— and exits Ok. -/
theorem up_declined_change_set_not_deleted_cex :
    envUpDeclined.confirm = false
    ∧ upRun envUpDeclined 3 =
        (.ok, [.createChangeSet .create, .askConfirm, .reportSuccess])
    ∧ Action.deleteChangeSet "cs-3" ∉ (upRun envUpDeclined 3).2 := by
  exact ⟨rfl, by decide, by decide⟩

/-- C5 amended: after the change request is submitted, the confirmation
gate decides only whether it is executed: on accept it is executed; on
decline nothing further is done with it — it is neither executed nor
deleted and remains pending — and the declined run still polls and exits
successfully with no resources created. -/
theorem confirmation_gate_spec :
    (∀ (env : UpEnv) kind idOpt, env.createChangeSetResult = .ok idOpt →
      env.confirm = false →
      upCreateOrUpdate env kind = (.ok, [.createChangeSet kind, .askConfirm]))
    ∧ (∀ (env : UpEnv) kind csid,
      env.createChangeSetResult = .ok (some csid) →
      env.confirm = true → env.executeChangeSetResult = .ok () →
      upCreateOrUpdate env kind =
        (.ok, [.createChangeSet kind, .askConfirm, .executeChangeSet csid]))
    ∧ (∀ (env : UpEnv) fuel tpl e idOpt r2 sl q sl2 q2,
      env.template = .ok tpl →
      waitUntilSettled up_op_in_progres env.stackStatusSeq fuel =
        some (.error e, sl, q) →
      env.createChangeSetResult = .ok idOpt →
      env.confirm = false →
      waitUntilSettled up_op_in_progres
        (fun k => env.stackStatusSeq (q + k)) fuel =
        some (.ok (.CreateComplete, r2), sl2, q2) →
      upRun env fuel =
        (.ok, [.createChangeSet .create, .askConfirm, .reportSuccess])) := by
  refine ⟨fun env kind idOpt hc hconf => ?_,
    fun env kind csid hc hconf hex => ?_,
    fun env fuel tpl e idOpt r2 sl q sl2 q2 htpl hw hc hconf hw2 => ?_⟩
  · unfold upCreateOrUpdate
    rw [hc, hconf]
    simp
  · unfold upCreateOrUpdate
    rw [hc, hconf, hex]
    simp
  · have h1 : upCreateOrUpdate env .create =
        (.ok, [.createChangeSet .create, .askConfirm]) := by
      unfold upCreateOrUpdate
      rw [hc, hconf]
      simp
    simp only [upRun, htpl, hw, h1]
    rw [upFinish_settled env fuel _ q .CreateComplete r2 sl2 q2 hw2]
    simp

/-- C5 witness: the gate's two sides at concrete inputs — declined: created
then abandoned, run Ok; accepted: created then executed. -/
theorem confirmation_gate_spec_witness :
    upCreateOrUpdate envUpDeclined .create =
      (.ok, [.createChangeSet .create, .askConfirm])
    ∧ upCreateOrUpdate envUpFailNoEvents .update =
      (.ok, [.createChangeSet .update, .askConfirm, .executeChangeSet "cs-5"])
    ∧ upRun envUpDeclined 3 =
      (.ok, [.createChangeSet .create, .askConfirm, .reportSuccess]) := by
  refine ⟨?_, ?_, ?_⟩
  · exact confirmation_gate_spec.1 envUpDeclined .create (some "cs-3") rfl rfl
  · exact confirmation_gate_spec.2.1 envUpFailNoEvents .update "cs-5" rfl rfl rfl
  · exact confirmation_gate_spec.2.2 envUpDeclined 3 "body"
      "Stack with id demo does not exist" (some "cs-3") "done" 0 1 0 1
      rfl rfl rfl rfl rfl


/-- The trace of preview_new_change_set starts with the change set creation
call whenever the template evaluation succeeded. -/
theorem previewNewChangeSet_head (env : PreviewEnv) (kind : ChangeSetType)
    (fuel : Nat) (tpl : String) (htpl : env.template = .ok tpl) :
    (previewNewChangeSet env kind fuel).2.head? = some (.createChangeSet kind) := by
  unfold previewNewChangeSet
  rw [htpl]
  cases env.createChangeSetResult with
  | error e => rfl
  | ok idOpt =>
    cases idOpt with
    | none => rfl
    | some csid =>
      cases waitUntilSettled change_set_op_in_progres env.csStatusSeq fuel with
      | none => rfl
      | some p =>
        obtain ⟨res, sl, q⟩ := p
        cases res with
        | error e => rfl
        | ok v => cases env.describeChangeSetResult <;> rfl

/-- C6 counterexample: an accepted update that settles in UpdateFailed makes
Up log the status and reason and return Ok without fetching any stack
events: describe_stack_events never appears in the trace, so no
Diagnostics-Extractor report is produced by Up. -/
theorem up_failure_no_event_fetch_cex :
    upRun envUpFailNoEvents 3 =
      (.ok, [.createChangeSet .update, .askConfirm, .executeChangeSet "cs-5",
        .reportFailure .UpdateFailed "boom"])
    ∧ Action.describeStackEvents ∉ (upRun envUpFailNoEvents 3).2 := by
  exact ⟨by decide, by decide⟩

/-- C6 amended: a terminal-but-unsuccessful settled status fails neither
command: Destroy reports the post-boundary resource failure events through
the extractor pipeline and still returns Ok, while Up only logs the raw
status and reason â fetching no events â and also returns Ok. -/
theorem terminal_failure_reporting_spec :
    (∀ (env : UpEnv) fuel tpl r0 csid s2 r2 sl q sl2 q2,
      env.template = .ok tpl →
      waitUntilSettled up_op_in_progres env.stackStatusSeq fuel =
        some (.ok (.CreateComplete, r0), sl, q) →
      env.createChangeSetResult = .ok (some csid) →
      env.confirm = true → env.executeChangeSetResult = .ok () →
      waitUntilSettled up_op_in_progres
        (fun k => env.stackStatusSeq (q + k)) fuel =
        some (.ok (s2, r2), sl2, q2) →
      s2 ≠ .CreateComplete → s2 ≠ .UpdateComplete →
      (upRun env fuel =
        (.ok, [.createChangeSet .update, .askConfirm, .executeChangeSet csid,
          .reportFailure s2 r2])
        ∧ Action.describeStackEvents ∉ (upRun env fuel).2))
    ∧ (∀ (env : DestroyEnv) fuel sid w sl q s2 r2 sl2 q2 evs,
      waitUntilSettled stack_op_in_progres env.stackStatusSeq fuel =
        some (w, sl, q) →
      env.describeStackResult = .ok ⟨some sid, none⟩ →
      env.deleteStackResult = .ok () →
      waitUntilSettled stack_op_in_progres
        (fun k => env.stackStatusSeq (q + k)) fuel =
        some (.ok (s2, r2), sl2, q2) →
      s2 ≠ .DeleteComplete →
      env.eventsResult = .ok evs →
      destroyRun env fuel =
        (.ok, [.describeStack, .printStack, .askConfirm, .deleteStack,
          .reportDestroyFailure s2, .describeStackEvents] ++
          print_resources_errors (destroyEventFilter env.startTime evs))) := by
  constructor
  · intro env fuel tpl r0 csid s2 r2 sl q sl2 q2 htpl hw hc hconf hex hw2 hne1 hne2
    have h1 : upCreateOrUpdate env .update =
        (.ok, [.createChangeSet .update, .askConfirm, .executeChangeSet csid]) := by
      unfold upCreateOrUpdate
      rw [hc, hconf, hex]
      simp
    have h2 : upRun env fuel =
        (.ok, [.createChangeSet .update, .askConfirm, .executeChangeSet csid,
          .reportFailure s2 r2]) := by
      simp only [upRun, htpl, hw, h1]
      rw [upFinish_settled env fuel _ q s2 r2 sl2 q2 hw2]
      simp [hne1, hne2]
    refine ⟨h2, ?_⟩
    rw [h2]
    simp
  · intro env fuel sid w sl q s2 r2 sl2 q2 evs hw1 hds hdel hw2 hne hev
    simp only [destroyRun, hw1, hds, hdel, hw2, hev]
    simp [hne]

/-- C6 witness: Up settling in UpdateFailed logs and exits Ok with no event
fetch; Destroy settling in DeleteFailed exits Ok and reports exactly the
post-boundary failure through the extractor pipeline. -/
theorem terminal_failure_reporting_spec_witness :
    (upRun envUpFailNoEvents 3 =
      (.ok, [.createChangeSet .update, .askConfirm, .executeChangeSet "cs-5",
        .reportFailure .UpdateFailed "boom"])
      ∧ Action.describeStackEvents ∉ (upRun envUpFailNoEvents 3).2)
    ∧ destroyRun envDestroyDeleteFailed 3 =
      (.ok, [.describeStack, .printStack, .askConfirm, .deleteStack,
        .reportDestroyFailure .DeleteFailed, .describeStackEvents,
        .reportResourceError "AWS::S3::Bucket" "Bucket" "denied" "props"]) := by
  constructor
  · exact terminal_failure_reporting_spec.1 envUpFailNoEvents 3 "body" "ok"
      "cs-5" .UpdateFailed "boom" 0 1 0 1 rfl rfl rfl rfl rfl rfl
      (by decide) (by decide)
  · have h := terminal_failure_reporting_spec.2 envDestroyDeleteFailed 3
      "sid-2" (.ok (.CreateComplete, "ok")) 0 1 .DeleteFailed "stuck" 0 1
      [evFail, evOld, evOkLate] rfl rfl rfl rfl (by decide) rfl
    exact h.trans (by decide)

/-- C8: the Diagnostics Extractor pipeline — the timestamp filter applied in
DestroyCommand::run composed with Display::print_resources_errors — emits
exactly the events whose resource status is CreateFailed or UpdateFailed
and whose timestamp is strictly greater than the boundary, in the relative
order of the input stream (its output is a sublist of the reports of the
stream); on boundary 100 and events at 90 CreateFailed, 105 CreateFailed,
120 UpdateComplete, the output is exactly the single 105 failure. -/
theorem diagnostics_extractor_spec :
    (∀ b evs, print_resources_errors (destroyEventFilter b evs) =
      specDiagnosticsExtractor b evs)
    ∧ (∀ b evs,
      (specDiagnosticsExtractor b evs).Sublist (evs.map reportOf))
    ∧ print_resources_errors (destroyEventFilter 100 [evOld, evFail, evOkLate]) =
      [.reportResourceError "AWS::S3::Bucket" "Bucket" "denied" "props"] := by
  refine ⟨fun b evs => ?_, fun b evs => ?_, by decide⟩
  · unfold print_resources_errors destroyEventFilter specDiagnosticsExtractor
    rw [List.filter_filter]
  · unfold specDiagnosticsExtractor
    exact (List.filter_sublist evs).map reportOf

/-- C9 counterexample: a failure of the initial stack status query that is
plainly not stack-not-found ("connection timed out") is not fatal: Up falls
through into the CREATE branch, issues the mutating create_change_set call,
and the process exits Ok. -/
theorem up_initial_query_error_creates_cex :
    envUpNetErr.stackStatusSeq 0 = .error "connection timed out"
    ∧ upRun envUpNetErr 3 =
      (.ok, [.createChangeSet .create, .askConfirm, .reportSuccess]) := by
  exact ⟨rfl, by decide⟩

/-- C9 amended: failures of the change-set create and execute calls, and of
the delete_stack call in RECREATE, are fatal — the error becomes the run's
result and no further call is issued. But a failure of the initial status
query, not only stack-not-found, selects the CREATE branch in both Up and
Preview, and RECREATE's best-effort post-deletion poll swallows a status
query failure, still issuing the mutating create_change_set call
afterwards. -/
theorem remote_failure_handling_spec :
    (∀ (env : UpEnv) fuel tpl e sl q,
      env.template = .ok tpl →
      waitUntilSettled up_op_in_progres env.stackStatusSeq fuel =
        some (.error e, sl, q) →
      (upRun env fuel).2.head? = some (.createChangeSet .create))
    ∧ (∀ (env : PreviewEnv) fuel tpl e sl q,
      env.template = .ok tpl →
      waitUntilSettled stack_op_in_progres env.stackStatusSeq fuel =
        some (.error e, sl, q) →
      (previewRun env fuel).2.head? = some (.createChangeSet .create))
    ∧ (∀ (env : UpEnv) fuel tpl r0 e sl q,
      env.template = .ok tpl →
      waitUntilSettled up_op_in_progres env.stackStatusSeq fuel =
        some (.ok (.DeleteComplete, r0), sl, q) →
      env.createChangeSetResult = .error e →
      upRun env fuel = (.err e, [.createChangeSet .create]))
    ∧ (∀ (env : UpEnv) fuel tpl r0 csid e sl q,
      env.template = .ok tpl →
      waitUntilSettled up_op_in_progres env.stackStatusSeq fuel =
        some (.ok (.DeleteComplete, r0), sl, q) →
      env.createChangeSetResult = .ok (some csid) →
      env.confirm = true →
      env.executeChangeSetResult = .error e →
      upRun env fuel =
        (.err e, [.createChangeSet .create, .askConfirm,
          .executeChangeSet csid]))
    ∧ (∀ (env : UpEnv) fuel tpl r0 e sl q,
      env.template = .ok tpl →
      waitUntilSettled up_op_in_progres env.stackStatusSeq fuel =
        some (.ok (.CreateFailed, r0), sl, q) →
      env.deleteStackResult = .error e →
      upRun env fuel = (.err e, [.deleteStack]))
    ∧ (∀ (env : UpEnv) fuel tpl r0 e sl q,
      env.template = .ok tpl →
      waitUntilSettled up_op_in_progres env.stackStatusSeq fuel =
        some (.ok (.CreateFailed, r0), sl, q) →
      env.deleteStackResult = .ok () →
      env.stackStatusSeq q = .error e →
      Action.createChangeSet .create ∈ (upRun env fuel).2) := by
  refine ⟨fun env fuel tpl e sl q htpl hw => ?_,
    fun env fuel tpl e sl q htpl hw => ?_,
    fun env fuel tpl r0 e sl q htpl hw hc => ?_,
    fun env fuel tpl r0 csid e sl q htpl hw hc hconf hex => ?_,
    fun env fuel tpl r0 e sl q htpl hw hdel => ?_,
    fun env fuel tpl r0 e sl q htpl hw hdel hq => ?_⟩
  · simp only [upRun, htpl, hw]
    exact upFinish_head _ _ _ _ _ _ (upCreateOrUpdate_head env .create)
  · simp only [previewRun, hw]
    exact previewNewChangeSet_head env .create fuel tpl htpl
  · have h1 : upCreateOrUpdate env .create =
        (.err e, [.createChangeSet .create]) := by
      unfold upCreateOrUpdate
      rw [hc]
    simp only [upRun, htpl, hw, h1]
    rfl
  · have h1 : upCreateOrUpdate env .create =
        (.err e, [.createChangeSet .create, .askConfirm,
          .executeChangeSet csid]) := by
      unfold upCreateOrUpdate
      rw [hc, hconf, hex]
      simp
    simp only [upRun, htpl, hw, h1]
    rfl
  · have h1 : upRecreate env fuel q = (.err e, [.deleteStack], q) := by
      unfold upRecreate
      rw [hdel]
    simp only [upRun, htpl, hw, h1]
    rfl
  · have hw2 : waitUntilSettled up_op_in_progres
        (fun k => env.stackStatusSeq (q + k)) fuel =
        some (.error e, 0, 1) := by
      unfold waitUntilSettled
      simp only [Nat.add_zero, hq]
    have h2 : upRecreate env fuel q =
        ((upCreateOrUpdate env .create).1,
          .deleteStack :: (upCreateOrUpdate env .create).2, q + 1) := by
      unfold upRecreate
      rw [hdel, hw2]
    simp only [upRun, htpl, hw, h2]
    apply upFinish_mem
    have hh := upCreateOrUpdate_head env .create
    cases hl : (upCreateOrUpdate env .create).2 with
    | nil => rw [hl] at hh; simp at hh
    | cons a t =>
      rw [hl] at hh
      simp at hh
      simp [hh]

/-- C9 witness: the handling modes at concrete inputs — Up and Preview fall
into CREATE on an initial query failure; a failing create, execute or
recreate-delete call aborts Up with that error and no further call; a
failing best-effort poll after the recreate deletion is swallowed and the
create_change_set call is still issued. -/
theorem remote_failure_handling_spec_witness :
    (upRun envUpNetErr 3).2.head? = some (.createChangeSet .create)
    ∧ (previewRun envPreviewErr 3).2.head? = some (.createChangeSet .create)
    ∧ upRun envUpCreateErr 3 =
      (.err "AccessDenied", [.createChangeSet .create])
    ∧ upRun envUpExecErr 3 =
      (.err "Throttling", [.createChangeSet .create, .askConfirm,
        .executeChangeSet "cs-11"])
    ∧ upRun envUpRecreateDelErr 3 = (.err "AccessDenied", [.deleteStack])
    ∧ Action.createChangeSet .create ∈ (upRun envUpRecreatePollErr 3).2 := by
  refine ⟨?_, ?_, ?_, ?_, ?_, ?_⟩
  · exact remote_failure_handling_spec.1 envUpNetErr 3 "body"
      "connection timed out" 0 1 rfl rfl
  · exact remote_failure_handling_spec.2.1 envPreviewErr 3 "body"
      "connection timed out" 0 1 rfl rfl
  · exact remote_failure_handling_spec.2.2.1 envUpCreateErr 3 "body" "gone"
      "AccessDenied" 0 1 rfl rfl rfl
  · exact remote_failure_handling_spec.2.2.2.1 envUpExecErr 3 "body" "gone"
      "cs-11" "Throttling" 0 1 rfl rfl rfl rfl rfl
  · exact remote_failure_handling_spec.2.2.2.2.1 envUpRecreateDelErr 3 "body"
      "bad" "AccessDenied" 0 1 rfl rfl rfl
  · exact remote_failure_handling_spec.2.2.2.2.2 envUpRecreatePollErr 3 "body"
      "bad" "connection reset" 0 1 rfl rfl rfl rfl

/-- C10: when describe_stack succeeds but the returned Stack carries no
stack id, Destroy neither returns an error value nor issues delete_stack:
the unwrap of the absent id panics first (provided the run reaches it, i.e.
the pending-change-set display step did not itself fail). -/
theorem destroy_missing_stack_id_panics (env : DestroyEnv) (fuel : Nat)
    (w : Except String (StackStatus × String) × Nat × Nat)
    (hw : waitUntilSettled stack_op_in_progres env.stackStatusSeq fuel =
      some w)
    (st : Stack) (hst : env.describeStackResult = .ok st)
    (hid : st.stack_id = none)
    (hcs : st.change_set_id = none ∨ env.describeChangeSetResult = .ok ()) :
    (destroyRun env fuel).1 = .panicked
    ∧ Action.deleteStack ∉ (destroyRun env fuel).2 := by
  obtain ⟨wres, sl, q⟩ := w
  obtain ⟨sid, cso⟩ := st
  simp only at hid
  subst hid
  simp only [destroyRun, hw, hst]
  rcases hcs with hcs | hcs
  · simp only at hcs
    subst hcs
    simp
  · cases cso with
    | none => simp
    | some c =>
      simp only [hcs]
      simp

/-- C10 witness: on the concrete environment whose described stack has no
id, Destroy panics after the confirmation prompt and before any deletion. -/
theorem destroy_missing_stack_id_panics_witness :
    (destroyRun envDestroyNoId 2).1 = .panicked
    ∧ Action.deleteStack ∉ (destroyRun envDestroyNoId 2).2 :=
  destroy_missing_stack_id_panics envDestroyNoId 2
    (.ok (.CreateComplete, "ok"), 0, 1) rfl ⟨none, none⟩ rfl rfl (Or.inl rfl)

end Pklformation
